import Mathlib

/-!
Shallow embedding of the map screen of this repository,
`src/app/(tabs)/index.tsx` (latest revision).

The screen is a single React component holding its state in hooks:
`location`, `errorMsg`, `region`, `provider`, `isTracking` (useState) and
`watchIdRef` (useRef).  We collect them in one record `HomeState`.  The two
location backends (expo-location and @react-native-community/geolocation) are
modelled by an explicit `Backend` record of live subscriptions, and every
asynchronous outcome (permission prompt, one-shot result, watch registration)
is passed to the modelled operation as an explicit parameter.  JavaScript
numbers are modelled as rationals (`ℚ`); the arithmetic the code performs on
them (halving, doubling) is exact.
-/

namespace SimpleMap

/-- A map viewport: center plus zoom spans, as in react-native-maps `Region`. -/
structure Region where
  latitude : ℚ
  longitude : ℚ
  latitudeDelta : ℚ
  longitudeDelta : ℚ
deriving Repr, DecidableEq

/-- Default region set to Ukraine (Kyiv), source lines 9-14. -/
def DEFAULT_REGION : Region :=
  { latitude := 50.4501, longitude := 30.5234,
    latitudeDelta := 0.0922, longitudeDelta := 0.0421 }

def MIN_ZOOM_DELTA : ℚ := 0.01

def MAX_ZOOM_DELTA : ℚ := 1.5

/-- The coordinate payload of a fix, as built by the source
(latitude/longitude plus the optional fields it copies). -/
structure Coords where
  latitude : ℚ
  longitude : ℚ
  altitude : Option ℚ
  accuracy : Option ℚ
  altitudeAccuracy : Option ℚ
  heading : Option ℚ
  speed : Option ℚ
deriving Repr, DecidableEq

/-- An expo-location `LocationObject`: coords plus timestamp. -/
structure LocationFix where
  coords : Coords
  timestamp : ℚ
deriving Repr, DecidableEq

/-- A `GeolocationResponse` delivered by the react-native-community backend.
Structurally like `LocationFix`, but kept as a separate type because the
source copies it field by field into its own shape. -/
structure GeoPosition where
  coords : Coords
  timestamp : ℚ
deriving Repr, DecidableEq

/-- The error object the react-native-community backend passes to error
callbacks (`code` 1 = PERMISSION_DENIED, 2 = POSITION_UNAVAILABLE,
3 = TIMEOUT). -/
structure GeoError where
  code : Nat
  message : String
deriving Repr, DecidableEq

/-- The two runtime values of the `provider` state: `'expo'` and
`'react-native-community'` (the string literals actually used by
`useState` and `toggleProvider`). -/
inductive LocationProvider
  | expo
  | reactNativeCommunity
deriving Repr, DecidableEq

/-- The value stored in `watchIdRef.current`: the expo branch stores the
subscription's `remove` function, the react-native branch stores the numeric
watch id returned by `Geolocation.watchPosition`. -/
inductive WatchHandle
  | expoRemove (id : Nat)
  | rnWatchId (id : Nat)
deriving Repr, DecidableEq

/-- Outcome of the OS location-permission prompt
(`requestForegroundPermissionsAsync`). -/
inductive PermissionStatus
  | granted
  | denied
  | undetermined
deriving Repr, DecidableEq

/-- The only accuracy value the source uses (`Location.Accuracy.Balanced`). -/
inductive ExpoAccuracy
  | balanced
deriving Repr, DecidableEq

/-- Options passed to `Location.watchPositionAsync`, source lines 99-103. -/
structure ExpoWatchOptions where
  accuracy : ExpoAccuracy
  timeInterval : Option ℚ
  distanceInterval : Option ℚ
deriving Repr, DecidableEq

/-- The literal options record of the expo tracking branch:
`accuracy: Balanced, timeInterval: 5000, distanceInterval: 10`. -/
def expoTrackingOptions : ExpoWatchOptions :=
  { accuracy := .balanced, timeInterval := some 5000, distanceInterval := some 10 }

/-- Options passed to `Geolocation.watchPosition`, source lines 134-138. -/
structure RNWatchOptions where
  enableHighAccuracy : Bool
  distanceFilter : Option ℚ
  interval : Option ℚ
deriving Repr, DecidableEq

/-- The literal options record of the react-native tracking branch:
`enableHighAccuracy: true, distanceFilter: 10, interval: 5000`. -/
def rnTrackingOptions : RNWatchOptions :=
  { enableHighAccuracy := true, distanceFilter := some 10, interval := some 5000 }

/-- Options passed to `Geolocation.getCurrentPosition`, source line 194. -/
structure RNOnceOptions where
  enableHighAccuracy : Bool
  timeout : Option ℚ
  maximumAge : Option ℚ
deriving Repr, DecidableEq

/-- The literal one-shot options of `getRNLocation`:
`enableHighAccuracy: true, timeout: 15000, maximumAge: 10000`. -/
def rnOnceOptions : RNOnceOptions :=
  { enableHighAccuracy := true, timeout := some 15000, maximumAge := some 10000 }

/-- The component's state: the useState hooks plus `watchIdRef`. -/
structure HomeState where
  location : Option LocationFix
  errorMsg : Option String
  region : Region
  provider : LocationProvider
  isTracking : Bool
  watchId : Option WatchHandle
deriving Repr, DecidableEq

/-- The state at screen mount, from the useState/useRef initializers
(source lines 22-28): no location, no error, `DEFAULT_REGION`, provider
`'react-native-community'`, not tracking, no watch handle. -/
def initState : HomeState :=
  { location := none, errorMsg := none, region := DEFAULT_REGION,
    provider := .reactNativeCommunity, isTracking := false, watchId := none }

/-- The live subscriptions held by the two backends, with the options each
watch was registered with.  `nextId` numbers new subscriptions. -/
structure Backend where
  expoWatches : List (Nat × ExpoWatchOptions)
  rnWatches : List (Nat × RNWatchOptions)
  nextId : Nat
deriving Repr, DecidableEq

def initBackend : Backend := { expoWatches := [], rnWatches := [], nextId := 0 }

/-- An expo subscription is live (its callback may still fire). -/
def Backend.expoLive (b : Backend) (id : Nat) : Bool :=
  b.expoWatches.any (fun w => w.1 = id)

/-- A react-native watch is live (its callback may still fire). -/
def Backend.rnLive (b : Backend) (id : Nat) : Bool :=
  b.rnWatches.any (fun w => w.1 = id)

/-- The `zoomIn` handler, source lines 65-75: if `latitudeDelta` exceeds
`MIN_ZOOM_DELTA`, halve both deltas, else leave the region as it is. -/
def zoomIn (region : Region) : Region :=
  if region.latitudeDelta > MIN_ZOOM_DELTA then
    { region with latitudeDelta := region.latitudeDelta / 2,
                  longitudeDelta := region.longitudeDelta / 2 }
  else region

/-- The `zoomOut` handler, source lines 77-87: if `latitudeDelta` is below
`MAX_ZOOM_DELTA`, double both deltas, else leave the region as it is. -/
def zoomOut (region : Region) : Region :=
  if region.latitudeDelta < MAX_ZOOM_DELTA then
    { region with latitudeDelta := region.latitudeDelta * 2,
                  longitudeDelta := region.longitudeDelta * 2 }
  else region

/-- The `updateRegion` helper, source lines 160-169: recenter on the new
location with both deltas fixed at 0.01. -/
def updateRegion (newLocation : LocationFix) : Region :=
  { latitude := newLocation.coords.latitude,
    longitude := newLocation.coords.longitude,
    latitudeDelta := 0.01, longitudeDelta := 0.01 }

/-- The expo watch callback body, source lines 104-108:
`setLocation(newLocation); updateRegion(newLocation)`. -/
def expoWatchCallback (s : HomeState) (newLocation : LocationFix) : HomeState :=
  { s with location := some newLocation, region := updateRegion newLocation }

/-- The field-by-field copy of a backend position into the internal fix
shape, as written in the react-native watch callback (source lines 115-126)
and in `getRNLocation` (source lines 178-189). -/
def positionToFix (position : GeoPosition) : LocationFix :=
  { coords :=
      { latitude := position.coords.latitude,
        longitude := position.coords.longitude,
        altitude := position.coords.altitude,
        accuracy := position.coords.accuracy,
        altitudeAccuracy := position.coords.altitudeAccuracy,
        heading := position.coords.heading,
        speed := position.coords.speed },
    timestamp := position.timestamp }

/-- The react-native watch success callback body, source lines 113-129:
build `newLocation` from the position, then
`setLocation(newLocation); updateRegion(newLocation)`. -/
def rnWatchCallback (s : HomeState) (position : GeoPosition) : HomeState :=
  let newLocation := positionToFix position
  { s with location := some newLocation, region := updateRegion newLocation }

/-- The react-native watch error callback body, source lines 130-133:
`setErrorMsg('Error tracking location')`. -/
def rnWatchOnError (s : HomeState) : HomeState :=
  { s with errorMsg := some "Error tracking location" }

/-- The `getExpoLocation` handler, source lines 30-63.  `perm` is the outcome
of the permission prompt, `result` the outcome of the awaited
`getCurrentPositionAsync` (a thrown error lands in the local catch).  The
function resolves with `undefined` in every path. -/
def getExpoLocation (s : HomeState) (perm : PermissionStatus)
    (result : Except String LocationFix) : HomeState :=
  if perm ≠ .granted then
    { s with errorMsg := some "Permission to access location was denied" }
  else
    match result with
    | .ok currentLocation =>
        { s with location := some currentLocation,
                 region :=
                   { latitude := currentLocation.coords.latitude,
                     longitude := currentLocation.coords.longitude,
                     latitudeDelta := 0.01, longitudeDelta := 0.01 } }
    | .error _ => { s with errorMsg := some "Error getting location" }

/-- The `getRNLocation` helper, source lines 171-197: resolve with a
field-by-field copy of the position, or reject with the backend's error. -/
def getRNLocation (result : Except GeoError GeoPosition) :
    Except GeoError LocationFix :=
  match result with
  | .ok position => .ok (positionToFix position)
  | .error e => .error e

/-- The `getLocation` handler, source lines 199-221.  On the expo branch the
awaited `getExpoLocation()` resolves with `undefined`, so the
`if (!currentLocation) return` guard always fires and the state is whatever
`getExpoLocation` left; on the react-native branch a resolved position sets
the location and a recentered region, and a rejection lands in the catch,
which sets `errorMsg` to the generic `'Error getting location'`. -/
def getLocation (s : HomeState) (perm : PermissionStatus)
    (expoResult : Except String LocationFix)
    (rnResult : Except GeoError GeoPosition) : HomeState :=
  if s.provider = .expo then
    getExpoLocation s perm expoResult
  else
    match getRNLocation rnResult with
    | .ok currentLocation =>
        { s with location := some currentLocation,
                 region :=
                   { latitude := currentLocation.coords.latitude,
                     longitude := currentLocation.coords.longitude,
                     latitudeDelta := 0.01, longitudeDelta := 0.01 } }
    | .error _ => { s with errorMsg := some "Error getting location" }

/-- The `startTracking` handler, source lines 89-146.  On the expo branch a
declined permission sets the message and returns before `setIsTracking`; a
successful `watchPositionAsync` registers an expo subscription and stores its
`remove` function in the ref; a rejected one lands in the catch.  The
react-native branch registers a watch synchronously (with
`rnTrackingOptions`) and stores its numeric id.  `setIsTracking(true)` runs
only when a watch was stored. -/
def startTracking (s : HomeState) (b : Backend) (perm : PermissionStatus)
    (expoWatchStart : Except String Unit) : HomeState × Backend :=
  if s.provider = .expo then
    if perm ≠ .granted then
      ({ s with errorMsg := some "Permission to access location was denied" }, b)
    else
      match expoWatchStart with
      | .ok _ =>
          ({ s with watchId := some (.expoRemove b.nextId), isTracking := true },
           { b with expoWatches := (b.nextId, expoTrackingOptions) :: b.expoWatches,
                    nextId := b.nextId + 1 })
      | .error _ =>
          ({ s with errorMsg := some "Error starting location tracking" }, b)
  else
    ({ s with watchId := some (.rnWatchId b.nextId), isTracking := true },
     { b with rnWatches := (b.nextId, rnTrackingOptions) :: b.rnWatches,
              nextId := b.nextId + 1 })

/-- Calling the stored expo `remove` function releases that subscription. -/
def callExpoRemove (b : Backend) (id : Nat) : Backend :=
  { b with expoWatches := b.expoWatches.filter (fun w => w.1 ≠ id) }

/-- `Geolocation.clearWatch` releases the watch with the given numeric id;
handed anything that is not a registered numeric id (such as the expo
subscription's `remove` function), its internal lookup finds no subscription
and it returns without doing anything. -/
def clearWatchRN (b : Backend) (h : WatchHandle) : Backend :=
  match h with
  | .rnWatchId id => { b with rnWatches := b.rnWatches.filter (fun w => w.1 ≠ id) }
  | .expoRemove _ => b

/-- The `stopTracking` handler, source lines 148-158.  It branches on the
CURRENT value of `provider` to decide how to release the stored handle: on
the expo branch it calls the stored value as a function — a TypeError at
runtime when the ref actually holds a react-native numeric id (modelled as
`Except.error`; nothing after the call runs) — and on the react-native
branch it passes the stored value to `Geolocation.clearWatch`. -/
def stopTracking (s : HomeState) (b : Backend) :
    Except String (HomeState × Backend) :=
  match s.watchId with
  | some h =>
      if s.provider = .expo then
        match h with
        | .expoRemove id =>
            .ok ({ s with watchId := none, isTracking := false }, callExpoRemove b id)
        | .rnWatchId _ =>
            .error "TypeError: watchIdRef.current is not a function"
      else
        .ok ({ s with watchId := none, isTracking := false }, clearWatchRN b h)
  | none => .ok ({ s with isTracking := false }, b)

/-- The `toggleProvider` handler, source lines 223-225. -/
def toggleProvider (s : HomeState) : HomeState :=
  { s with provider :=
      if s.provider = .expo then .reactNativeCommunity else .expo }

/-- The `useEffect [provider]` body, source lines 227-234, as it runs after a
provider change: the closure sees the NEW provider value.  While tracking it
calls `stopTracking()` then `startTracking()`; a TypeError thrown by
`stopTracking` aborts the effect.  Otherwise it calls `getLocation()`. -/
def providerEffect (s : HomeState) (b : Backend) (perm : PermissionStatus)
    (expoWatchStart : Except String Unit)
    (expoResult : Except String LocationFix)
    (rnResult : Except GeoError GeoPosition) :
    Except String (HomeState × Backend) :=
  if s.isTracking then
    match stopTracking s b with
    | .ok (s1, b1) => .ok (startTracking s1 b1 perm expoWatchStart)
    | .error e => .error e
  else
    .ok (getLocation s perm expoResult rnResult, b)

/-- One step of the screen's behaviour: a user action, the provider effect,
the unmount cleanup, or a backend delivering to a live watch's callback.
The backend invokes a watch callback only while that subscription is live. -/
inductive Step : HomeState → Backend → HomeState → Backend → Prop
  | zoomInPress (s : HomeState) (b : Backend) :
      Step s b { s with region := zoomIn s.region } b
  | zoomOutPress (s : HomeState) (b : Backend) :
      Step s b { s with region := zoomOut s.region } b
  | locatePress (s : HomeState) (b : Backend) (perm : PermissionStatus)
      (eo : Except String LocationFix) (ro : Except GeoError GeoPosition) :
      Step s b (getLocation s perm eo ro) b
  | startPress (s : HomeState) (b : Backend) (perm : PermissionStatus)
      (ew : Except String Unit) :
      s.isTracking = false →
      Step s b (startTracking s b perm ew).1 (startTracking s b perm ew).2
  | stopPress (s : HomeState) (b : Backend) (s' : HomeState) (b' : Backend) :
      s.isTracking = true → stopTracking s b = .ok (s', b') →
      Step s b s' b'
  | togglePress (s : HomeState) (b : Backend) :
      Step s b (toggleProvider s) b
  | effectAfterToggle (s : HomeState) (b : Backend) (s' : HomeState)
      (b' : Backend) (perm : PermissionStatus) (ew : Except String Unit)
      (eo : Except String LocationFix) (ro : Except GeoError GeoPosition) :
      providerEffect s b perm ew eo ro = .ok (s', b') →
      Step s b s' b'
  | unmountCleanup (s : HomeState) (b : Backend) (s' : HomeState) (b' : Backend) :
      stopTracking s b = .ok (s', b') →
      Step s b s' b'
  | expoFix (s : HomeState) (b : Backend) (id : Nat) (fix : LocationFix) :
      b.expoLive id = true →
      Step s b (expoWatchCallback s fix) b
  | rnFix (s : HomeState) (b : Backend) (id : Nat) (position : GeoPosition) :
      b.rnLive id = true →
      Step s b (rnWatchCallback s position) b
  | rnFixError (s : HomeState) (b : Backend) (id : Nat) :
      b.rnLive id = true →
      Step s b (rnWatchOnError s) b

/-- The states the screen can reach from mount through its operations. -/
inductive Reachable : HomeState → Backend → Prop
  | init : Reachable initState initBackend
  | step {s b s' b'} : Reachable s b → Step s b s' b' → Reachable s' b'

/-- Modelled from the spec: the "primary provider" of spec §3/§4.2 — the
permission-gated backend whose one-shot has no explicit timeout and whose
watch uses 5000ms/10m filters — is the expo backend; the spec's "secondary"
(15s one-shot timeout, 10s max cache age, 10m movement filter) is the
react-native-community backend. -/
def specPrimaryProvider : LocationProvider := .expo

/-- A state holding a previous successful fix and its region, with the
react-native-community provider active and tracking off. -/
def locatedRNState : HomeState :=
  { location := some
      { coords := { latitude := 50.45, longitude := 30.52, altitude := none,
                    accuracy := none, altitudeAccuracy := none,
                    heading := none, speed := none },
        timestamp := 0 },
    errorMsg := none,
    region := { latitude := 50.45, longitude := 30.52,
                latitudeDelta := 0.01, longitudeDelta := 0.01 },
    provider := .reactNativeCommunity, isTracking := false, watchId := none }

/-- Claim C5: for every region whose `latitudeDelta` exceeds
`MIN_ZOOM_DELTA` (0.01), `zoomIn` halves both deltas; for every region whose
`latitudeDelta` is at or below the bound, `zoomIn` returns it unchanged. -/
theorem zoomIn_halves_or_noop (r : Region) :
    (MIN_ZOOM_DELTA < r.latitudeDelta →
      zoomIn r = { r with latitudeDelta := r.latitudeDelta / 2,
                          longitudeDelta := r.longitudeDelta / 2 }) ∧
    (r.latitudeDelta ≤ MIN_ZOOM_DELTA → zoomIn r = r) := by
  constructor
  · intro h
    unfold zoomIn
    rw [if_pos h]
  · intro h
    unfold zoomIn
    rw [if_neg (not_lt.mpr h)]

/-- Witness for C5 at concrete regions on both sides of the bound. -/
theorem zoomIn_halves_or_noop_witness :
    zoomIn { latitude := 1, longitude := 2,
             latitudeDelta := 0.04, longitudeDelta := 0.02 } =
      { latitude := 1, longitude := 2,
        latitudeDelta := 0.02, longitudeDelta := 0.01 } ∧
    zoomIn { latitude := 1, longitude := 2,
             latitudeDelta := 0.01, longitudeDelta := 0.005 } =
      { latitude := 1, longitude := 2,
        latitudeDelta := 0.01, longitudeDelta := 0.005 } := by
  constructor
  · rw [(zoomIn_halves_or_noop _).1 (by norm_num [MIN_ZOOM_DELTA])]
    norm_num [Region.mk.injEq]
  · exact (zoomIn_halves_or_noop _).2 (by norm_num [MIN_ZOOM_DELTA])

/-- Claim C6: for every region whose `latitudeDelta` is below
`MAX_ZOOM_DELTA` (1.5), `zoomOut` doubles both deltas; for every region whose
`latitudeDelta` is at or above the bound, `zoomOut` returns it unchanged. -/
theorem zoomOut_doubles_or_noop (r : Region) :
    (r.latitudeDelta < MAX_ZOOM_DELTA →
      zoomOut r = { r with latitudeDelta := r.latitudeDelta * 2,
                           longitudeDelta := r.longitudeDelta * 2 }) ∧
    (MAX_ZOOM_DELTA ≤ r.latitudeDelta → zoomOut r = r) := by
  constructor
  · intro h
    unfold zoomOut
    rw [if_pos h]
  · intro h
    unfold zoomOut
    rw [if_neg (not_lt.mpr h)]

/-- Witness for C6 at concrete regions on both sides of the bound. -/
theorem zoomOut_doubles_or_noop_witness :
    zoomOut { latitude := 1, longitude := 2,
              latitudeDelta := 0.4, longitudeDelta := 0.3 } =
      { latitude := 1, longitude := 2,
        latitudeDelta := 0.8, longitudeDelta := 0.6 } ∧
    zoomOut { latitude := 1, longitude := 2,
              latitudeDelta := 1.5, longitudeDelta := 1.5 } =
      { latitude := 1, longitude := 2,
        latitudeDelta := 1.5, longitudeDelta := 1.5 } := by
  constructor
  · rw [(zoomOut_doubles_or_noop _).1 (by norm_num [MAX_ZOOM_DELTA])]
    norm_num [Region.mk.injEq]
  · exact (zoomOut_doubles_or_noop _).2 (by norm_num [MAX_ZOOM_DELTA])

/-- Claim C10: both zoom steps leave the region's center untouched — the
latitude and longitude of the result equal those of the input. -/
theorem zoom_preserves_center (r : Region) :
    (zoomIn r).latitude = r.latitude ∧ (zoomIn r).longitude = r.longitude ∧
    (zoomOut r).latitude = r.latitude ∧ (zoomOut r).longitude = r.longitude := by
  unfold zoomIn zoomOut
  refine ⟨?_, ?_, ?_, ?_⟩ <;> split <;> rfl

/-- Claim C2: every successful fix — a one-shot via `getLocation` on either
provider, or one delivered by either watch callback — stores the fix in
`location` and resets the region to be centered exactly on the fix with both
deltas 0.01, whatever the previous state held. -/
theorem fix_recenters (s : HomeState) (fix : LocationFix)
    (position : GeoPosition) (perm : PermissionStatus)
    (eo : Except String LocationFix) (ro : Except GeoError GeoPosition) :
    ((getLocation { s with provider := .expo } .granted (.ok fix) ro).location =
       some fix ∧
     (getLocation { s with provider := .expo } .granted (.ok fix) ro).region =
       { latitude := fix.coords.latitude, longitude := fix.coords.longitude,
         latitudeDelta := 0.01, longitudeDelta := 0.01 }) ∧
    ((getLocation { s with provider := .reactNativeCommunity } perm eo
        (.ok position)).location = some (positionToFix position) ∧
     (getLocation { s with provider := .reactNativeCommunity } perm eo
        (.ok position)).region =
       { latitude := position.coords.latitude,
         longitude := position.coords.longitude,
         latitudeDelta := 0.01, longitudeDelta := 0.01 }) ∧
    ((expoWatchCallback s fix).location = some fix ∧
     (expoWatchCallback s fix).region =
       { latitude := fix.coords.latitude, longitude := fix.coords.longitude,
         latitudeDelta := 0.01, longitudeDelta := 0.01 }) ∧
    ((rnWatchCallback s position).location = some (positionToFix position) ∧
     (rnWatchCallback s position).region =
       { latitude := position.coords.latitude,
         longitude := position.coords.longitude,
         latitudeDelta := 0.01, longitudeDelta := 0.01 }) ∧
    (positionToFix position).coords.latitude = position.coords.latitude ∧
    (positionToFix position).coords.longitude = position.coords.longitude :=
  ⟨⟨rfl, rfl⟩, ⟨rfl, rfl⟩, ⟨rfl, rfl⟩, ⟨rfl, rfl⟩, rfl, rfl⟩

/-- Claim C3 counterexample: with the react-native-community provider active,
a one-shot that fails because the permission prompt was declined (backend
error code 1, PERMISSION_DENIED) is caught generically: `errorMsg` becomes
"Error getting location", not the permission-denied message, and the
resulting state is identical to the one a timeout (code 3) produces — so the
PermissionDenied condition is not recorded. -/
theorem rnPermissionDenied_not_recorded :
    (getLocation locatedRNState .denied (.error "unused")
        (.error { code := 1, message := "Location permission denied" })).errorMsg =
      some "Error getting location" ∧
    (getLocation locatedRNState .denied (.error "unused")
        (.error { code := 1, message := "Location permission denied" })).errorMsg ≠
      some "Permission to access location was denied" ∧
    getLocation locatedRNState .denied (.error "unused")
        (.error { code := 1, message := "Location permission denied" }) =
      getLocation locatedRNState .denied (.error "unused")
        (.error { code := 3, message := "Location request timed out" }) :=
  ⟨rfl, by decide, rfl⟩

/-- Claim C3 amended: when `requestOnce` fails because permission was
declined, the session only records an error and keeps everything else — with
the expo provider `errorMsg` becomes the permission-denied message, with the
react-native provider the rejection is caught generically as
"Error getting location"; in both cases the previous fix and region (and all
other fields) are unchanged. -/
theorem requestOnce_failure_sets_error_only (s : HomeState)
    (eo : Except String LocationFix) (ro : Except GeoError GeoPosition)
    (perm : PermissionStatus) (e : GeoError) :
    getLocation { s with provider := .expo } .denied eo ro =
      { s with provider := .expo,
               errorMsg := some "Permission to access location was denied" } ∧
    getLocation { s with provider := .reactNativeCommunity } perm eo (.error e) =
      { s with provider := .reactNativeCommunity,
               errorMsg := some "Error getting location" } :=
  ⟨rfl, rfl⟩

/-- Claim C8 counterexample: the provider at mount is
`'react-native-community'` — the spec's secondary backend — not the primary
(expo) one. -/
theorem initial_provider_not_primary :
    initState.provider = .reactNativeCommunity ∧
    initState.provider ≠ specPrimaryProvider :=
  ⟨rfl, by decide⟩

/-- Claim C8 amended: at screen mount the state has no fix, no error, the
default region, is not tracking, holds no watch handle, and the active
provider is the react-native-community (secondary) backend. -/
theorem initState_defaults :
    initState.location = none ∧ initState.errorMsg = none ∧
    initState.region = DEFAULT_REGION ∧ initState.isTracking = false ∧
    initState.watchId = none ∧
    initState.provider = .reactNativeCommunity :=
  ⟨rfl, rfl, rfl, rfl, rfl, rfl⟩

/-- Claim C9 counterexample: the react-native-community (secondary) watch is
registered with `interval: 5000` — a time-based update parameter is
configured, so the watch is not subject only to the movement filter. -/
theorem rnWatch_has_time_interval :
    rnTrackingOptions.interval = some 5000 ∧
    ¬ rnTrackingOptions.interval = none :=
  ⟨rfl, by decide⟩

/-- Claim C9 amended: starting tracking on the react-native-community
provider registers one new watch whose options are `enableHighAccuracy:
true`, `distanceFilter: 10` and `interval: 5000` — a 10m movement filter
together with a 5000ms time interval. -/
theorem rnWatch_options (s : HomeState) (b : Backend)
    (perm : PermissionStatus) (ew : Except String Unit) :
    (startTracking { s with provider := .reactNativeCommunity } b perm
        ew).2.rnWatches = (b.nextId, rnTrackingOptions) :: b.rnWatches ∧
    rnTrackingOptions.enableHighAccuracy = true ∧
    rnTrackingOptions.distanceFilter = some 10 ∧
    rnTrackingOptions.interval = some 5000 :=
  ⟨rfl, rfl, rfl, rfl⟩

/-- One-shot requests never touch the watch handle or the tracking flag. -/
theorem getLocation_fields (s : HomeState) (perm : PermissionStatus)
    (eo : Except String LocationFix) (ro : Except GeoError GeoPosition) :
    (getLocation s perm eo ro).watchId = s.watchId ∧
    (getLocation s perm eo ro).isTracking = s.isTracking := by
  unfold getLocation getExpoLocation getRNLocation
  refine ⟨?_, ?_⟩ <;> (repeat' split) <;> rfl

/-- `startTracking` preserves handle/flag agreement: either it stores a
handle and raises the flag together, or it changes neither. -/
theorem startTracking_invariant (s : HomeState) (b : Backend)
    (perm : PermissionStatus) (ew : Except String Unit)
    (h : s.watchId.isSome = s.isTracking) :
    (startTracking s b perm ew).1.watchId.isSome =
      (startTracking s b perm ew).1.isTracking := by
  unfold startTracking
  (repeat' split) <;> first | rfl | exact h

/-- Whenever `stopTracking` returns normally, the resulting state holds no
watch handle and is not tracking. -/
theorem stopTracking_ok_fields (s : HomeState) (b : Backend) (s' : HomeState)
    (b' : Backend) (h : stopTracking s b = .ok (s', b')) :
    s'.watchId = none ∧ s'.isTracking = false := by
  unfold stopTracking at h
  split at h
  · split at h
    · split at h
      · simp only [Except.ok.injEq, Prod.mk.injEq] at h
        obtain ⟨hs, -⟩ := h
        subst hs
        exact ⟨rfl, rfl⟩
      · cases h
    · simp only [Except.ok.injEq, Prod.mk.injEq] at h
      obtain ⟨hs, -⟩ := h
      subst hs
      exact ⟨rfl, rfl⟩
  · rename_i hnone
    simp only [Except.ok.injEq, Prod.mk.injEq] at h
    obtain ⟨hs, -⟩ := h
    subst hs
    exact ⟨hnone, rfl⟩

/-- The provider effect preserves handle/flag agreement. -/
theorem providerEffect_invariant (s : HomeState) (b : Backend)
    (s' : HomeState) (b' : Backend) (perm : PermissionStatus)
    (ew : Except String Unit) (eo : Except String LocationFix)
    (ro : Except GeoError GeoPosition)
    (h : providerEffect s b perm ew eo ro = .ok (s', b'))
    (hinv : s.watchId.isSome = s.isTracking) :
    s'.watchId.isSome = s'.isTracking := by
  unfold providerEffect at h
  split at h
  · split at h
    · rename_i s1 b1 heq
      simp only [Except.ok.injEq] at h
      have hs : s' = (startTracking s1 b1 perm ew).1 := by rw [h]
      rw [hs]
      apply startTracking_invariant
      have hf := stopTracking_ok_fields s b s1 b1 heq
      rw [hf.1, hf.2]
      rfl
    · cases h
  · simp only [Except.ok.injEq, Prod.mk.injEq] at h
    obtain ⟨hs, -⟩ := h
    subst hs
    rw [(getLocation_fields s perm eo ro).1, (getLocation_fields s perm eo ro).2]
    exact hinv

/-- Claim C4: in every state the screen can reach through its operations
(one-shot request, start/stop tracking, provider toggle and its effect,
unmount cleanup, watch deliveries), the watch handle is present exactly when
`isTracking` is true. -/
theorem watchId_iff_isTracking (s : HomeState) (b : Backend)
    (h : Reachable s b) : s.watchId.isSome = s.isTracking := by
  induction h with
  | init => rfl
  | step hr hst ih =>
    cases hst with
    | zoomInPress => exact ih
    | zoomOutPress => exact ih
    | locatePress perm eo ro =>
        rw [(getLocation_fields _ perm eo ro).1,
            (getLocation_fields _ perm eo ro).2]
        exact ih
    | startPress perm ew hnt => exact startTracking_invariant _ _ perm ew ih
    | stopPress _ _ htr heq =>
        have hf := stopTracking_ok_fields _ _ _ _ heq
        rw [hf.1, hf.2]
        rfl
    | togglePress => exact ih
    | effectAfterToggle _ _ perm ew eo ro heq =>
        exact providerEffect_invariant _ _ _ _ perm ew eo ro heq ih
    | unmountCleanup _ _ heq =>
        have hf := stopTracking_ok_fields _ _ _ _ heq
        rw [hf.1, hf.2]
        rfl
    | expoFix id fix hlive => exact ih
    | rnFix id position hlive => exact ih
    | rnFixError id hlive => exact ih

/-- Witness for C4: the state after pressing start from the initial state is
reachable, and there the handle's presence equals the tracking flag. -/
theorem watchId_iff_isTracking_witness :
    (startTracking initState initBackend .granted (.ok ())).1.watchId.isSome =
      (startTracking initState initBackend .granted (.ok ())).1.isTracking :=
  watchId_iff_isTracking _ _
    (Reachable.step Reachable.init
      (Step.startPress initState initBackend .granted (.ok ()) rfl))

/-- The state right after a provider switch made while tracking on expo:
the screen now tracks a react-native watch (id 1). -/
def afterSwitchState : HomeState :=
  { location := none, errorMsg := none, region := DEFAULT_REGION,
    provider := .reactNativeCommunity, isTracking := true,
    watchId := some (.rnWatchId 1) }

/-- The backend after that switch: the old expo subscription (id 0) was
never released — `clearWatch` was handed its `remove` function — so it is
still live next to the new react-native watch. -/
def afterSwitchBackend : Backend :=
  { expoWatches := [(0, expoTrackingOptions)],
    rnWatches := [(1, rnTrackingOptions)], nextId := 2 }

/-- A fix the leaked expo subscription delivers after the switch. -/
def staleExpoFix : LocationFix :=
  { coords := { latitude := 7, longitude := 8, altitude := none,
                accuracy := none, altitudeAccuracy := none, heading := none,
                speed := none },
    timestamp := 1 }

/-- Claim C1 fails on the code: switching providers while tracking on expo
runs the provider effect with the NEW provider value, so `stopTracking`
passes the stored expo `remove` function to `Geolocation.clearWatch`, which
releases nothing.  The reached state (mount → toggle to expo → start
tracking → toggle back → provider effect) has TWO live watch handles — the
leaked expo one next to the new react-native one — and a fix the old expo
subscription delivers afterwards still updates `location` and the region. -/
theorem switch_leaks_old_watch :
    Reachable afterSwitchState afterSwitchBackend ∧
    afterSwitchBackend.expoLive 0 = true ∧
    afterSwitchBackend.rnLive 1 = true ∧
    Step afterSwitchState afterSwitchBackend
      (expoWatchCallback afterSwitchState staleExpoFix) afterSwitchBackend ∧
    afterSwitchState.location = none ∧
    (expoWatchCallback afterSwitchState staleExpoFix).location =
      some staleExpoFix ∧
    (expoWatchCallback afterSwitchState staleExpoFix).region =
      updateRegion staleExpoFix := by
  have r1 : Reachable (toggleProvider initState) initBackend :=
    Reachable.step Reachable.init (Step.togglePress initState initBackend)
  have r2 := Reachable.step r1
    (Step.startPress (toggleProvider initState) initBackend .granted
      (.ok ()) rfl)
  have r3 := Reachable.step r2
    (Step.togglePress
      (startTracking (toggleProvider initState) initBackend .granted
        (.ok ())).1
      (startTracking (toggleProvider initState) initBackend .granted
        (.ok ())).2)
  have r4 := Reachable.step r3
    (Step.effectAfterToggle _ _ afterSwitchState afterSwitchBackend .granted
      (.ok ()) (.error "unused") (.error { code := 2, message := "unused" })
      rfl)
  exact ⟨r4, rfl, rfl,
    Step.expoFix afterSwitchState afterSwitchBackend 0 staleExpoFix rfl,
    rfl, rfl, rfl⟩

/-- The state right after toggling the provider to expo while tracking on
the react-native backend: the ref still holds the numeric watch id. -/
def mismatchedStopState : HomeState :=
  { location := none, errorMsg := none, region := DEFAULT_REGION,
    provider := .expo, isTracking := true, watchId := some (.rnWatchId 0) }

/-- The backend in that state: the react-native watch (id 0) is live. -/
def mismatchedStopBackend : Backend :=
  { expoWatches := [], rnWatches := [(0, rnTrackingOptions)], nextId := 1 }

/-- Claim C7 fails on the code: `stopTracking` branches on the CURRENT
provider to release the stored handle, so in the reachable state where the
provider was toggled to expo while a react-native watch is held (mount →
start tracking → toggle), it calls the numeric watch id as a function and
raises a TypeError instead of being an error-free no-op. -/
theorem stopTracking_raises_after_toggle :
    Reachable mismatchedStopState mismatchedStopBackend ∧
    stopTracking mismatchedStopState mismatchedStopBackend =
      .error "TypeError: watchIdRef.current is not a function" := by
  have r1 := Reachable.step Reachable.init
    (Step.startPress initState initBackend .granted (.ok ()) rfl)
  have r2 := Reachable.step r1
    (Step.togglePress
      (startTracking initState initBackend .granted (.ok ())).1
      (startTracking initState initBackend .granted (.ok ())).2)
  exact ⟨r2, rfl⟩

end SimpleMap
